import Mathlib

/-!
Verification of the Intake & Reference-Resolution Engine of the
Icts_solution repository (multi-step contact intake form backed by a
relational store).  The definitions below are a shallow embedding of the
TypeScript source: `src/components/ContactForm.tsx` (wizard navigation,
cascading state/city option loading, and the submission orchestrator
`onSubmit`) and the `exportToCsv` routine of the admin table bundled in
the same file.  Parts of the design that the specification describes but
that are absent from the sources provided (the free-text resolve-or-create
lookup resolver and the composite-address derivation) are modelled from
the specification text and marked as such in their doc comments.
-/

namespace Icts

/-- Case-folding used to model JavaScript `toLowerCase()` on the ASCII
names and emails this application handles: character-wise lower-casing. -/
def lowerStr (s : String) : String :=
  String.mk (s.data.map Char.toLower)

/-- Whitespace trimming used to model JavaScript `trim()` (and the
`trim()` the spec prescribes for labels and emails): drop leading and
trailing whitespace characters.  Defined over the character list so that
it evaluates inside the kernel. -/
def trimStr (s : String) : String :=
  String.mk
    (((s.data.dropWhile Char.isWhitespace).reverse.dropWhile
        Char.isWhitespace).reverse)

theorem lowerStr_eq_empty_iff (s : String) : lowerStr s = "" ↔ s = "" := by
  constructor
  · intro h
    have hdata : (lowerStr s).data = [] := by rw [h]
    have : s.data.map Char.toLower = [] := hdata
    have hnil : s.data = [] := List.map_eq_nil_iff.mp this
    cases s with
    | mk d =>
      simp only at hnil
      rw [hnil]
  · intro h; subst h; rfl

/-! ## Wizard step navigation

Embedding of the step state and the two navigation handlers of
`ContactForm` (`src/components/ContactForm.tsx`, lines 52-57 and 191-198):

    const steps = [contact, professional, investigator, admin];
    const goNext = () => setActiveStep(prev => Math.min(prev + 1, steps.length - 1));
    const goPrev = () => setActiveStep(prev => Math.max(prev - 1, 0));

The active step is a JavaScript number; we model it as an integer. -/

/-- Number of steps in the wizard (`steps.length` in the source). -/
def stepsLength : Int := 4

/-- Embedding of `goNext`: increment the active step, bounded at the last
step index `steps.length - 1`. -/
def goNext (activeStep : Int) : Int :=
  min (activeStep + 1) (stepsLength - 1)

/-- Embedding of `goPrev`: decrement the active step, bounded at 0. -/
def goPrev (activeStep : Int) : Int :=
  max (activeStep - 1) 0

end Icts

/-- C6: for every wizard state (step index between 0 and the last index),
goNext at the last step is a no-op and goPrev at the first step is a
no-op; in all other states goNext increments and goPrev decrements the
active step index by exactly one. -/
theorem C6_wizard_navigation (s : Int) (h0 : 0 ≤ s)
    (h3 : s ≤ Icts.stepsLength - 1) :
    (s = Icts.stepsLength - 1 → Icts.goNext s = s) ∧
    (s < Icts.stepsLength - 1 → Icts.goNext s = s + 1) ∧
    (s = 0 → Icts.goPrev s = s) ∧
    (0 < s → Icts.goPrev s = s - 1) := by
  unfold Icts.goNext Icts.goPrev Icts.stepsLength at *
  refine ⟨?_, ?_, ?_, ?_⟩ <;> intro h <;> omega

/-- C6 witness: instantiation at step index 1 of the navigation theorem. -/
theorem C6_wizard_navigation_witness :
    (0 : Int) ≤ 1 ∧ (1 : Int) ≤ Icts.stepsLength - 1 ∧
    ((1 : Int) = Icts.stepsLength - 1 → Icts.goNext 1 = 1) ∧
    ((1 : Int) < Icts.stepsLength - 1 → Icts.goNext 1 = 1 + 1) ∧
    ((1 : Int) = 0 → Icts.goPrev 1 = 1) ∧
    ((0 : Int) < 1 → Icts.goPrev 1 = 1 - 1) := by
  refine ⟨by decide, by decide, ?_⟩
  have h := C6_wizard_navigation 1 (by decide) (by decide)
  exact ⟨h.1, h.2.1, h.2.2.1, h.2.2.2⟩

namespace Icts

/-! ## Cascading dependent option loading

Embedding of the reference data for the dependent lookups and of the two
reactive effects of `ContactForm` (`src/components/ContactForm.tsx`,
lines 147-189).  `loadStates` runs whenever the watched `country_id`
changes: when the field is empty it sets the state option list to `[]`,
otherwise it loads the states whose `country_id` matches, ordered by
name.  `loadCities` does the same for the watched `state_id` and the city
option list.  Neither effect touches the other select's registered form
value, and `loadCities` is keyed only on `state_id`. -/

/-- Option shown in a dependent select: row id and display name. -/
structure Option' where
  id : Nat
  name : String
deriving DecidableEq, Repr

/-- Row of the `state_region` table: id, owning country, name. -/
structure StateRow where
  id : Nat
  country_id : Nat
  name : String
deriving DecidableEq, Repr

/-- Row of the `city` table: id, owning state, name. -/
structure CityRow where
  id : Nat
  state_id : Nat
  name : String
deriving DecidableEq, Repr

/-- Reference data reachable through the store for the cascade. -/
structure GeoDb where
  stateRows : List StateRow
  cityRows : List CityRow
deriving Repr

/-- Query issued by `loadStates`: states with the given `country_id`
(we keep store order; ordering by name does not matter for the claims). -/
def statesOf (db : GeoDb) (cid : Nat) : List Option' :=
  (db.stateRows.filter (fun r => r.country_id = cid)).map
    (fun r => { id := r.id, name := r.name })

/-- Query issued by `loadCities`: cities with the given `state_id`. -/
def citiesOf (db : GeoDb) (sid : Nat) : List Option' :=
  (db.cityRows.filter (fun r => r.state_id = sid)).map
    (fun r => { id := r.id, name := r.name })

/-- Cascade-relevant component state: the two watched select values
(`none` models the empty string value of an unselected select) and the
two dependent option lists. -/
structure CascadeState where
  country_id : Option Nat
  state_id : Option Nat
  states : List Option'
  cities : List Option'
deriving DecidableEq, Repr

/-- Initial cascade state: nothing selected, both option lists empty. -/
def initCascade : CascadeState :=
  { country_id := none, state_id := none, states := [], cities := [] }

/-- User-visible events that drive the cascade: editing the country
select or the state select. -/
inductive CascadeEv where
  | setCountry (v : Option Nat)
  | setState (v : Option Nat)
deriving DecidableEq, Repr

/-- One step of the cascade: an edit of a watched field followed by the
reactive effect it triggers.  Editing `country_id` re-runs `loadStates`
(empty value gives an empty option list); it does not change the
registered `state_id` value and does not re-run `loadCities`.  Editing
`state_id` re-runs `loadCities` symmetrically. -/
def cascadeStep (db : GeoDb) (s : CascadeState) : CascadeEv → CascadeState
  | .setCountry v =>
      { s with
        country_id := v
        states := match v with | none => [] | some cid => statesOf db cid }
  | .setState v =>
      { s with
        state_id := v
        cities := match v with | none => [] | some sid => citiesOf db sid }

/-- Cascade state reached from the initial state by a sequence of edits. -/
def runCascade (db : GeoDb) (evs : List CascadeEv) : CascadeState :=
  evs.foldl (cascadeStep db) initCascade

/-- Concrete reference data for the counterexample: country 1 has state
10, state 10 has city 100. -/
def geoDbC5 : GeoDb :=
  { stateRows := [{ id := 10, country_id := 1, name := "S" }]
    cityRows := [{ id := 100, state_id := 10, name := "C" }] }

/-- Counterexample trace: select country 1, select state 10 (city options
load), then clear the country select. -/
def evsC5 : List CascadeEv :=
  [.setCountry (some 1), .setState (some 10), .setCountry none]

end Icts

/-- C5 counterexample: a reachable cascade state whose country field is
empty while the city option set is non-empty — selecting a country and a
state loads the city options, and clearing the country afterwards clears
only the state options, because the city-loading effect is keyed solely
on the state field, which keeps its registered value. -/
theorem C5_counterexample :
    (Icts.runCascade Icts.geoDbC5 Icts.evsC5).country_id = none ∧
    (Icts.runCascade Icts.geoDbC5 Icts.evsC5).states = [] ∧
    (Icts.runCascade Icts.geoDbC5 Icts.evsC5).cities ≠ [] := by
  refine ⟨rfl, rfl, ?_⟩
  decide

/-- C5 amended: in every reachable cascade state, an empty country field
implies an empty state option set, and an empty state field implies an
empty city option set; clearing the country alone does not clear the
city option set while a state value remains selected. -/
theorem C5_cascade_invariant (db : Icts.GeoDb) (evs : List Icts.CascadeEv) :
    ((Icts.runCascade db evs).country_id = none →
      (Icts.runCascade db evs).states = []) ∧
    ((Icts.runCascade db evs).state_id = none →
      (Icts.runCascade db evs).cities = []) := by
  suffices h : ∀ (s : Icts.CascadeState),
      (s.country_id = none → s.states = []) ∧
      (s.state_id = none → s.cities = []) →
      ((evs.foldl (Icts.cascadeStep db) s).country_id = none →
        (evs.foldl (Icts.cascadeStep db) s).states = []) ∧
      ((evs.foldl (Icts.cascadeStep db) s).state_id = none →
        (evs.foldl (Icts.cascadeStep db) s).cities = []) by
    exact h Icts.initCascade ⟨fun _ => rfl, fun _ => rfl⟩
  induction evs with
  | nil => intro s hs; simpa using hs
  | cons e rest ih =>
    intro s hs
    simp only [List.foldl_cons]
    apply ih
    cases e with
    | setCountry v =>
      cases v with
      | none => exact ⟨fun _ => rfl, fun h => hs.2 h⟩
      | some cid =>
        refine ⟨fun h => ?_, fun h => hs.2 h⟩
        simp [Icts.cascadeStep] at h
    | setState v =>
      cases v with
      | none => exact ⟨fun h => hs.1 h, fun _ => rfl⟩
      | some sid =>
        refine ⟨fun h => hs.1 h, fun h => ?_⟩
        simp [Icts.cascadeStep] at h

/-- C5 amended witness: the invariant evaluated on the concrete
counterexample data and trace. -/
theorem C5_cascade_invariant_witness :
    ((Icts.runCascade Icts.geoDbC5 Icts.evsC5).country_id = none →
      (Icts.runCascade Icts.geoDbC5 Icts.evsC5).states = []) ∧
    ((Icts.runCascade Icts.geoDbC5 Icts.evsC5).state_id = none →
      (Icts.runCascade Icts.geoDbC5 Icts.evsC5).cities = []) :=
  C5_cascade_invariant Icts.geoDbC5 Icts.evsC5

namespace Icts

/-! ## LookupResolver (resolve-or-create) -/

/-- Reference row: id and name (`ReferenceEntity` without the optional
parent scope, which the claim does not exercise). -/
structure RefEntity where
  id : Nat
  name : String
deriving DecidableEq, Repr

/-- Reference collection: its rows plus the id the store will assign to
the next inserted row. -/
structure RefColl where
  rows : List RefEntity
  nextId : Nat
deriving DecidableEq, Repr

/-- Modelled from the spec: the free-text LookupResolver is not part of
the sources provided under src/ (the bundled ContactForm variant uses
id-backed selects only); `resolve` follows spec section 4.2 — return
`none` for a blank or whitespace-only label, otherwise trim the label,
match case-insensitively against the collection, return the matching id
without inserting, and only when no match exists insert a new row whose
name is the trimmed label and return its id. -/
def resolve (c : RefColl) (label : String) : Option Nat × RefColl :=
  let t := trimStr label
  if t = "" then (none, c)
  else
    match c.rows.find? (fun r => lowerStr r.name = lowerStr t) with
    | some r => (some r.id, c)
    | none =>
        (some c.nextId,
         { rows := c.rows ++ [{ id := c.nextId, name := t }]
           nextId := c.nextId + 1 })

/-- Id returned by a resolution. -/
def resolveId (c : RefColl) (label : String) : Option Nat :=
  (resolve c label).1

/-- Collection state after a resolution. -/
def resolveState (c : RefColl) (label : String) : RefColl :=
  (resolve c label).2

/-- Labels are interchangeable for the resolver when their trimmed forms
agree case-insensitively. -/
def labelEquiv (a b : String) : Prop :=
  lowerStr (Icts.trimStr a) = lowerStr (Icts.trimStr b)

instance (a b : String) : Decidable (labelEquiv a b) :=
  inferInstanceAs (Decidable (lowerStr (Icts.trimStr a) = lowerStr (Icts.trimStr b)))

theorem labelEquiv_refl (a : String) : labelEquiv a a := rfl

/-- After resolving a non-blank label, the resulting collection contains
a row whose name matches the label case-insensitively. -/
theorem resolve_creates_match (c : RefColl) (l : String)
    (hl : (Icts.trimStr l) ≠ "") :
    ∃ r ∈ (resolveState c l).rows, lowerStr r.name = lowerStr (Icts.trimStr l) := by
  unfold resolveState resolve
  simp only [if_neg hl]
  cases hfind : c.rows.find? (fun r => lowerStr r.name = lowerStr (Icts.trimStr l)) with
  | some r =>
    have hr := List.find?_some hfind
    have hmem := List.mem_of_find?_eq_some hfind
    exact ⟨r, by simpa [hfind] using hmem, by simpa using hr⟩
  | none =>
    refine ⟨{ id := c.nextId, name := (Icts.trimStr l) }, ?_, rfl⟩
    simp [hfind]

/-- Resolving a label equivalent to one already matched in the collection
leaves the collection unchanged. -/
theorem resolveState_of_match (c : RefColl) (l : String)
    (hmatch : ∃ r ∈ c.rows, lowerStr r.name = lowerStr (Icts.trimStr l)) :
    resolveState c l = c := by
  unfold resolveState resolve
  by_cases ht : (Icts.trimStr l) = ""
  · simp [ht]
  · simp only [if_neg ht]
    obtain ⟨r, hr, hname⟩ := hmatch
    cases hfind : c.rows.find? (fun x => lowerStr x.name = lowerStr (Icts.trimStr l)) with
    | some x => rfl
    | none =>
      exfalso
      have := List.find?_eq_none.mp hfind r hr
      simp [hname] at this

/-- Key invariance lemma: once a label has been resolved, resolving any
case-insensitively equal label is a pure read — the collection state does
not change again. -/
theorem resolveState_idem (c : RefColl) (l l' : String)
    (heq : labelEquiv l' l) :
    resolveState (resolveState c l) l' = resolveState c l := by
  by_cases ht : (Icts.trimStr l) = ""
  · have ht' : (Icts.trimStr l') = "" := by
      have : lowerStr (Icts.trimStr l') = "" := by
        rw [heq, ht]; rfl
      exact (lowerStr_eq_empty_iff _).mp this
    unfold resolveState resolve
    simp [ht, ht']
  · apply resolveState_of_match
    have ⟨r, hr, hname⟩ := resolve_creates_match c l ht
    exact ⟨r, hr, by rw [hname, ← heq]⟩

/-- Resolving the same label twice returns the same id both times. -/
theorem resolveId_stable (c : RefColl) (l : String) :
    resolveId (resolveState c l) l = resolveId c l := by
  by_cases ht : (Icts.trimStr l) = ""
  · unfold resolveId resolveState resolve
    simp [ht]
  · unfold resolveId resolveState resolve
    simp only [if_neg ht]
    cases hfind : c.rows.find? (fun r => lowerStr r.name = lowerStr (Icts.trimStr l)) with
    | some r => simp [hfind]
    | none =>
      simp only [hfind]
      have hnone : ∀ x ∈ c.rows, ¬ (lowerStr x.name = lowerStr (Icts.trimStr l)) := by
        intro x hx
        have := List.find?_eq_none.mp hfind x hx
        simpa using this
      rw [List.find?_append]
      have h1 : c.rows.find? (fun r => lowerStr r.name = lowerStr (Icts.trimStr l))
          = none := hfind
      simp [h1, List.find?]

/-- Resolution grows the collection by at most one row. -/
theorem resolveState_count (c : RefColl) (l : String) :
    (resolveState c l).rows.length ≤ c.rows.length + 1 := by
  unfold resolveState resolve
  by_cases ht : (Icts.trimStr l) = ""
  · simp [ht]
  · simp only [if_neg ht]
    cases hfind : c.rows.find? (fun r => lowerStr r.name = lowerStr (Icts.trimStr l)) with
    | some r => simp
    | none => simp

/-- Collection state after a whole sequence of resolutions. -/
def resolveAll (c : RefColl) (labels : List String) : RefColl :=
  labels.foldl resolveState c

/-- After the first resolution of `l`, further resolutions of labels
equivalent to `l` never change the collection. -/
theorem resolveAll_fixed (c : RefColl) (l : String) (ls : List String)
    (hls : ∀ x ∈ ls, labelEquiv x l) :
    resolveAll (resolveState c l) ls = resolveState c l := by
  induction ls with
  | nil => rfl
  | cons a rest ih =>
    have ha : labelEquiv a l := hls a (by simp)
    have hstep : resolveState (resolveState c l) a = resolveState c l :=
      resolveState_idem c l a ha
    unfold resolveAll
    rw [List.foldl_cons, hstep]
    exact ih (fun x hx => hls x (by simp [hx]))

end Icts

/-- C2: resolve called twice with the same label returns the same id both
times, and across any number of repeated calls with case-insensitively
equal labels the collection's row count increases by at most one — no
duplicate reference row is ever created for an existing name. -/
theorem C2_resolve_idempotent (c : Icts.RefColl) (l : String)
    (ls : List String) (hls : ∀ x ∈ ls, Icts.labelEquiv x l) :
    Icts.resolveId (Icts.resolveState c l) l = Icts.resolveId c l ∧
    (Icts.resolveAll c (l :: ls)).rows.length ≤ c.rows.length + 1 := by
  refine ⟨Icts.resolveId_stable c l, ?_⟩
  have : Icts.resolveAll c (l :: ls)
      = Icts.resolveAll (Icts.resolveState c l) ls := by
    unfold Icts.resolveAll
    rw [List.foldl_cons]
  rw [this, Icts.resolveAll_fixed c l ls hls]
  exact Icts.resolveState_count c l

/-- C2 witness: three repeated resolutions of case-insensitive variants
of one label on a concrete collection — the id is stable and the row
count grows by at most one. -/
theorem C2_resolve_idempotent_witness :
    (∀ x ∈ ["acme CLINIC", " Acme Clinic "], Icts.labelEquiv x "Acme Clinic") ∧
    (Icts.resolveId
        (Icts.resolveState { rows := [], nextId := 1 } "Acme Clinic")
        "Acme Clinic"
      = Icts.resolveId { rows := [], nextId := 1 } "Acme Clinic") ∧
    (Icts.resolveAll { rows := [], nextId := 1 }
        ("Acme Clinic" :: ["acme CLINIC", " Acme Clinic "])).rows.length
      ≤ ([] : List Icts.RefEntity).length + 1 := by
  have hls : ∀ x ∈ ["acme CLINIC", " Acme Clinic "],
      Icts.labelEquiv x "Acme Clinic" := by decide
  have h := C2_resolve_idempotent { rows := [], nextId := 1 } "Acme Clinic"
    ["acme CLINIC", " Acme Clinic "] hls
  exact ⟨hls, h.1, h.2⟩

namespace Icts

/-! ## Submission orchestrator

Embedding of the `onSubmit` handler of `ContactForm`
(`src/components/ContactForm.tsx`, lines 200-349).  The handler, in
order: trims the email and treats an empty result as absent; if an email
is present, queries for an existing contact with a case-insensitively
equal email (`ilike`, wildcard-free patterns modelled as case-insensitive
equality) through `maybeSingle` and fails early on a query error or on a
match; reads the session and fails early when it errors or is absent;
inserts the contact row with empty optional fields mapped to null; on an
insert error remaps store uniqueness-violation messages to the duplicate
message; if the intake flagged an investigator, inserts the profile row
and on a failure reports a partial-success message while keeping the
contact row; finally, only on full success, resets the active step to 0.
Store and environment outcomes (session, query and insert failures) are
explicit inputs so every branch of the handler is reachable. -/

/-- Select field value as typed in the form: the empty string of an
unselected select, or a numeric id. -/
inductive SelectVal where
  | empty
  | num (n : Nat)
deriving DecidableEq, Repr

/-- JavaScript `x || null` on a string field: the empty string is falsy
and becomes null, everything else is kept. -/
def strOrNull (s : String) : Option String :=
  if s = "" then none else some s

/-- JavaScript `x || null` on a `number | ''` select field: the empty
string and the number 0 are falsy and become null. -/
def selectOrNull : SelectVal → Option Nat
  | .empty => none
  | .num n => if n = 0 then none else some n

/-- Form values accumulated by the wizard (the `FormValues` type of the
source, lines 15-48). -/
structure FormValues where
  first_name : String
  last_name : String
  email : String
  mobile_phone : String
  office_phone : String
  academic_title : String
  hospital_clinic_address : String
  admin_assistant_name : String
  admin_assistant_email : String
  admin_assistant_phone : String
  country_id : SelectVal
  state_id : SelectVal
  city_id : SelectVal
  organization_id : SelectVal
  specialty_id : SelectVal
  occupation_id : SelectVal
  department_id : SelectVal
  has_pi_experience : Bool
  pi_experience_notes : String
  interested_in_pi_role : Bool
  pi_interest_notes : String
  has_subi_experience : Bool
  subi_experience_notes : String
  interested_in_subi_role : Bool
  subi_interest_notes : String
  gcp_trained : Bool
  gcp_last_training_date : String
  inv_notes : String
  is_investigator : Bool
deriving DecidableEq, Repr

/-- Persisted contact row (columns written by the insert at lines
265-288 of the source). -/
structure Contact where
  id : Nat
  first_name : String
  last_name : String
  email : Option String
  mobile_phone : Option String
  office_phone : Option String
  academic_title : Option String
  hospital_clinic_address : Option String
  admin_assistant_name : Option String
  admin_assistant_email : Option String
  admin_assistant_phone : Option String
  country_id : Option Nat
  state_id : Option Nat
  city_id : Option Nat
  organization_id : Option Nat
  specialty_id : Option Nat
  occupation_id : Option Nat
  department_id : Option Nat
  created_by : String
deriving DecidableEq, Repr

/-- Persisted investigator-profile row (columns written by the insert at
lines 306-323 of the source). -/
structure InvProfileRow where
  contact_id : Nat
  has_pi_experience : Bool
  pi_experience_notes : Option String
  interested_in_pi_role : Bool
  pi_interest_notes : Option String
  has_subi_experience : Bool
  subi_experience_notes : Option String
  interested_in_subi_role : Bool
  subi_interest_notes : Option String
  gcp_trained : Bool
  gcp_last_training_date : Option String
  notes : Option String
deriving DecidableEq, Repr

/-- Persistent store state seen by the orchestrator. -/
structure Db where
  contacts : List Contact
  invProfiles : List InvProfileRow
  nextContactId : Nat
deriving DecidableEq, Repr

/-- External outcomes of the collaborator calls made during one
submission: the session lookup, the email-uniqueness query and the two
inserts.  A `some` failure carries the error message the store returned. -/
structure Env where
  session : Option String
  sessionFail : Option String
  emailCheckFail : Bool
  contactInsertFail : Option String
  profileInsertFail : Option String
deriving DecidableEq, Repr

/-- Outcome of one submission, one constructor per return path of the
handler, carrying the user-facing message where the source builds one
dynamically. -/
inductive SubmitOutcome where
  | emailCheckFailed
  | duplicateEmail
  | sessionFailed (msg : String)
  | notLoggedIn
  | contactInsertFailed (msg : String)
  | profileInsertFailed (msg : String)
  | saved
deriving DecidableEq, Repr

/-- JavaScript `hay.includes(needle)`: substring test, executable. -/
def containsSub (hay needle : String) : Bool :=
  hay.data.tails.any (fun t => needle.data.isPrefixOf t)

/-- Error remapping of the contact-insert failure path (lines 290-304):
a missing message falls back to a generic one, and a store message
mentioning the uniqueness constraint or a duplicate key is replaced by
the duplicate-email message. -/
def remapContactError (raw : String) : String :=
  if containsSub raw "contact_email_unique" ∨ containsSub raw "duplicate key value"
  then "A contact with this email already exists."
  else if raw = "" then "Error creating contact." else raw

/-- Contacts whose stored email matches the given one case-insensitively
(the `ilike` filter of the pre-check; null emails never match). -/
def emailMatches (db : Db) (e : String) : List Contact :=
  db.contacts.filter (fun c =>
    match c.email with
    | some ce => lowerStr ce = lowerStr e
    | none => false)

/-- Contact row built by the insert call, with the falsy-to-null mapping
applied to every optional scalar and reference field. -/
def contactRow (uid : String) (cid : Nat) (v : FormValues) : Contact :=
  { id := cid
    first_name := v.first_name
    last_name := v.last_name
    email := strOrNull (trimStr v.email)
    mobile_phone := strOrNull v.mobile_phone
    office_phone := strOrNull v.office_phone
    academic_title := strOrNull v.academic_title
    hospital_clinic_address := strOrNull v.hospital_clinic_address
    admin_assistant_name := strOrNull v.admin_assistant_name
    admin_assistant_email := strOrNull v.admin_assistant_email
    admin_assistant_phone := strOrNull v.admin_assistant_phone
    country_id := selectOrNull v.country_id
    state_id := selectOrNull v.state_id
    city_id := selectOrNull v.city_id
    organization_id := selectOrNull v.organization_id
    specialty_id := selectOrNull v.specialty_id
    occupation_id := selectOrNull v.occupation_id
    department_id := selectOrNull v.department_id
    created_by := uid }

/-- Investigator-profile row built by the conditional insert call. -/
def invProfileRow (cid : Nat) (v : FormValues) : InvProfileRow :=
  { contact_id := cid
    has_pi_experience := v.has_pi_experience
    pi_experience_notes := strOrNull v.pi_experience_notes
    interested_in_pi_role := v.interested_in_pi_role
    pi_interest_notes := strOrNull v.pi_interest_notes
    has_subi_experience := v.has_subi_experience
    subi_experience_notes := strOrNull v.subi_experience_notes
    interested_in_subi_role := v.interested_in_subi_role
    subi_interest_notes := strOrNull v.subi_interest_notes
    gcp_trained := v.gcp_trained
    gcp_last_training_date := strOrNull v.gcp_last_training_date
    notes := strOrNull v.inv_notes }

/-- Early-return result of the email-uniqueness pre-check (lines
209-238): no email means no check; a query error (also the multi-row
error of `maybeSingle`) or an existing match return the corresponding
outcome, otherwise the handler proceeds. -/
def dupCheck (db : Db) (env : Env) (trimmedEmail : Option String) :
    Option SubmitOutcome :=
  match trimmedEmail with
  | none => none
  | some e =>
      if env.emailCheckFail then some .emailCheckFailed
      else
        match emailMatches db e with
        | [] => none
        | [_] => some .duplicateEmail
        | _ :: _ :: _ => some .emailCheckFailed

/-- The submission handler: consumes the store state, the collaborator
outcomes, the form values and the current active step; produces the
outcome, the new store state and the new active step (reset to 0 only on
the fully successful path, where the source calls `reset()` and
`setActiveStep(0)`). -/
def onSubmit (db : Db) (env : Env) (v : FormValues) (activeStep : Int) :
    SubmitOutcome × Db × Int :=
  match dupCheck db env (strOrNull (trimStr v.email)) with
  | some o => (o, db, activeStep)
  | none =>
      match env.sessionFail with
      | some m =>
          (.sessionFailed (if m = "" then "Could not get user session." else m),
           db, activeStep)
      | none =>
          match env.session with
          | none => (.notLoggedIn, db, activeStep)
          | some uid =>
              match env.contactInsertFail with
              | some raw => (.contactInsertFailed (remapContactError raw), db, activeStep)
              | none =>
                  let c := contactRow uid db.nextContactId v
                  let db1 : Db :=
                    { db with
                      contacts := db.contacts ++ [c]
                      nextContactId := db.nextContactId + 1 }
                  if v.is_investigator then
                    match env.profileInsertFail with
                    | some err =>
                        (.profileInsertFailed
                          ("Contact saved but investigator profile failed: " ++ err),
                         db1, activeStep)
                    | none =>
                        (.saved,
                         { db1 with
                           invProfiles := db1.invProfiles ++ [invProfileRow c.id v] },
                         0)
                  else (.saved, db1, 0)

end Icts

namespace Icts

/-- Form values with every field blank or unset, used as the base of the
concrete scenarios below. -/
def vBlank : FormValues :=
  { first_name := "", last_name := "", email := "", mobile_phone := ""
    office_phone := "", academic_title := "", hospital_clinic_address := ""
    admin_assistant_name := "", admin_assistant_email := ""
    admin_assistant_phone := "", country_id := .empty, state_id := .empty
    city_id := .empty, organization_id := .empty, specialty_id := .empty
    occupation_id := .empty, department_id := .empty
    has_pi_experience := false, pi_experience_notes := ""
    interested_in_pi_role := false, pi_interest_notes := ""
    has_subi_experience := false, subi_experience_notes := ""
    interested_in_subi_role := false, subi_interest_notes := ""
    gcp_trained := false, gcp_last_training_date := "", inv_notes := ""
    is_investigator := false }

/-- Environment in which every collaborator call succeeds. -/
def envOk : Env :=
  { session := some "user-2", sessionFail := none, emailCheckFail := false
    contactInsertFail := none, profileInsertFail := none }

/-- Scenario data: an existing contact stored with email
Ada@Example.org (created from a prior successful submission). -/
def vAda : FormValues :=
  { vBlank with first_name := "Ada", last_name := "Lovelace"
                email := "Ada@Example.org" }

/-- Store holding Ada's contact. -/
def dbAda : Db :=
  { contacts := [contactRow "user-1" 1 vAda], invProfiles := []
    nextContactId := 2 }

/-- Second submission reusing Ada's email with different case and
surrounding whitespace. -/
def vDup : FormValues :=
  { vBlank with first_name := "Augusta", last_name := "King"
                email := " ada@example.org " }

end Icts

/-- C1: when the trimmed email of a submission is non-empty and a stored
contact already carries a case-insensitively equal email, the submission
fails with the duplicate-email outcome and the store is unchanged — no
contact and no investigator-profile row is written.  The hypothesis that
at most one stored contact matches any email reflects the store's
case-insensitive uniqueness constraint on contact.email. -/
theorem C1_duplicate_email_rejected (db : Icts.Db) (env : Icts.Env)
    (v : Icts.FormValues) (step : Int)
    (hwf : ∀ e, (Icts.emailMatches db e).length ≤ 1)
    (hq : env.emailCheckFail = false)
    (hne : Icts.trimStr v.email ≠ "")
    (hdup : ∃ c ∈ db.contacts, ∃ ce, c.email = some ce ∧
      Icts.lowerStr ce = Icts.lowerStr (Icts.trimStr v.email)) :
    Icts.onSubmit db env v step = (.duplicateEmail, db, step) := by
  obtain ⟨c, hc, ce, hce, hlow⟩ := hdup
  have hmem : c ∈ Icts.emailMatches db (Icts.trimStr v.email) := by
    apply List.mem_filter.mpr
    refine ⟨hc, ?_⟩
    simp [hce, hlow]
  have hpos : 0 < (Icts.emailMatches db (Icts.trimStr v.email)).length :=
    List.length_pos.mpr (fun h => by rw [h] at hmem; exact (List.not_mem_nil c) hmem)
  have hlen : (Icts.emailMatches db (Icts.trimStr v.email)).length = 1 :=
    le_antisymm (hwf _) hpos
  obtain ⟨x, hx⟩ := List.length_eq_one.mp hlen
  have hsome : Icts.strOrNull (Icts.trimStr v.email)
      = some (Icts.trimStr v.email) := by
    simp [Icts.strOrNull, hne]
  simp [Icts.onSubmit, Icts.dupCheck, hsome, hq, hx]

/-- C1 witness: submitting " ada@example.org " against a store holding a
contact with email Ada@Example.org fails with the duplicate outcome and
writes nothing. -/
theorem C1_duplicate_email_rejected_witness :
    (∀ e, (Icts.emailMatches Icts.dbAda e).length ≤ 1) ∧
    Icts.envOk.emailCheckFail = false ∧
    Icts.trimStr Icts.vDup.email ≠ "" ∧
    (∃ c ∈ Icts.dbAda.contacts, ∃ ce, c.email = some ce ∧
      Icts.lowerStr ce = Icts.lowerStr (Icts.trimStr Icts.vDup.email)) ∧
    Icts.onSubmit Icts.dbAda Icts.envOk Icts.vDup 3
      = (.duplicateEmail, Icts.dbAda, 3) := by
  have hwf : ∀ e, (Icts.emailMatches Icts.dbAda e).length ≤ 1 := by
    intro e
    exact List.length_filter_le _ _
  have hne : Icts.trimStr Icts.vDup.email ≠ "" := by decide
  have hdup : ∃ c ∈ Icts.dbAda.contacts, ∃ ce, c.email = some ce ∧
      Icts.lowerStr ce = Icts.lowerStr (Icts.trimStr Icts.vDup.email) := by
    refine ⟨Icts.contactRow "user-1" 1 Icts.vAda, by decide, "Ada@Example.org",
      by decide, by decide⟩
  exact ⟨hwf, rfl, hne, hdup,
    C1_duplicate_email_rejected Icts.dbAda Icts.envOk Icts.vDup 3 hwf rfl hne hdup⟩

/-- The email pre-check can only produce one of its two failure
outcomes; in particular it never produces the success outcome. -/
theorem dupCheck_ne_saved (db : Icts.Db) (env : Icts.Env)
    (t : Option String) :
    Icts.dupCheck db env t ≠ some Icts.SubmitOutcome.saved := by
  unfold Icts.dupCheck
  cases t with
  | none => simp
  | some e =>
    by_cases h : env.emailCheckFail = true
    · simp [h]
    · simp only [h]
      cases hm : Icts.emailMatches db e with
      | nil => simp
      | cons a t' => cases t' <;> simp

set_option linter.unnecessarySeqFocus false in
/-- Helper for C4: the resulting active step of a submission is 0 when
the outcome is the fully successful one and the incoming step otherwise. -/
theorem onSubmit_step_eq (db : Icts.Db) (env : Icts.Env)
    (v : Icts.FormValues) (step : Int) :
    (Icts.onSubmit db env v step).2.2
      = if (Icts.onSubmit db env v step).1 = Icts.SubmitOutcome.saved
        then 0 else step := by
  unfold Icts.onSubmit
  cases hd : Icts.dupCheck db env (Icts.strOrNull (Icts.trimStr v.email)) with
  | some o =>
    have hne : o ≠ Icts.SubmitOutcome.saved := by
      intro h
      exact dupCheck_ne_saved db env _ (by rw [hd, h])
    simp [hne]
  | none =>
    cases env.sessionFail <;> cases env.session <;>
      cases env.contactInsertFail <;> simp <;>
      cases hinv : v.is_investigator <;>
      cases env.profileInsertFail <;> simp

/-- C4: the wizard's active step is reset to the initial index 0 exactly
when the submission succeeds; on every failing outcome the active step
is left unchanged, preserving the user's position for correction and
resubmission. -/
theorem C4_step_reset_iff_success (db : Icts.Db) (env : Icts.Env)
    (v : Icts.FormValues) (step : Int) :
    ((Icts.onSubmit db env v step).1 = Icts.SubmitOutcome.saved →
      (Icts.onSubmit db env v step).2.2 = 0) ∧
    ((Icts.onSubmit db env v step).1 ≠ Icts.SubmitOutcome.saved →
      (Icts.onSubmit db env v step).2.2 = step) := by
  constructor
  · intro h
    rw [onSubmit_step_eq, if_pos h]
  · intro h
    rw [onSubmit_step_eq, if_neg h]

/-- C4 witness: a failing submission (no session) from step 3 stays at
step 3, and a successful blank-email submission from step 3 resets to 0;
both follow from the reset-iff-success theorem applied at those inputs. -/
theorem C4_step_reset_iff_success_witness :
    ((Icts.onSubmit Icts.dbAda Icts.envOk Icts.vBlank 3).1
        = Icts.SubmitOutcome.saved ∧
      (Icts.onSubmit Icts.dbAda Icts.envOk Icts.vBlank 3).2.2 = 0) ∧
    ((Icts.onSubmit Icts.dbAda
          { Icts.envOk with session := none } Icts.vBlank 3).1
        ≠ Icts.SubmitOutcome.saved ∧
      (Icts.onSubmit Icts.dbAda
          { Icts.envOk with session := none } Icts.vBlank 3).2.2 = 3) := by
  have h1 := C4_step_reset_iff_success Icts.dbAda Icts.envOk Icts.vBlank 3
  have h2 := C4_step_reset_iff_success Icts.dbAda
    { Icts.envOk with session := none } Icts.vBlank 3
  have hs1 : (Icts.onSubmit Icts.dbAda Icts.envOk Icts.vBlank 3).1
      = Icts.SubmitOutcome.saved := by decide
  have hs2 : (Icts.onSubmit Icts.dbAda
      { Icts.envOk with session := none } Icts.vBlank 3).1
      ≠ Icts.SubmitOutcome.saved := by decide
  exact ⟨⟨hs1, h1.1 hs1⟩, ⟨hs2, h2.2 hs2⟩⟩

namespace Icts

/-- Store for the partial-success scenario: empty, next contact id 7. -/
def dbC3 : Db := { contacts := [], invProfiles := [], nextContactId := 7 }

/-- Environment for the partial-success scenario: everything succeeds
except the investigator-profile insert, which fails with message boom. -/
def envC3 : Env := { envOk with profileInsertFail := some "boom" }

/-- Submission flagged as an investigator for the partial-success
scenario. -/
def vC3 : FormValues :=
  { vBlank with first_name := "Ada", last_name := "L"
                is_investigator := true }

end Icts

/-- C3 counterexample: a submission flagged as investigator whose
profile insert fails yields the partial-success outcome and keeps the
contact row with id 7 committed, but the reported message is the fixed
prefix plus the store's error message — the decimal form of the created
contact id 7 appears nowhere in it, so the outcome does not name the
already-created contact id as the claim states. -/
theorem C3_counterexample :
    (Icts.onSubmit Icts.dbC3 Icts.envC3 Icts.vC3 2).1
      = Icts.SubmitOutcome.profileInsertFailed
          "Contact saved but investigator profile failed: boom" ∧
    (∃ c ∈ (Icts.onSubmit Icts.dbC3 Icts.envC3 Icts.vC3 2).2.1.contacts,
      c.id = 7) ∧
    Icts.containsSub "Contact saved but investigator profile failed: boom"
      (toString 7) = false := by
  refine ⟨by decide, ⟨Icts.contactRow "user-2" 7 Icts.vC3, by decide, rfl⟩,
    by decide⟩

/-- C3 amended: when the contact insert succeeds and the
investigator-profile insert fails, the contact row remains committed
(the store gains exactly the new contact and no profile row), the
orchestrator reports the partial-success outcome — a constructor
distinct from the full-failure one — with the fixed partial-success
message plus the store's error text, and the wizard step is preserved;
the reported message does not include the created contact id. -/
theorem C3_partial_success (db : Icts.Db) (env : Icts.Env)
    (v : Icts.FormValues) (step : Int) (uid err : String)
    (hno : Icts.emailMatches db (Icts.trimStr v.email) = [])
    (hq : env.emailCheckFail = false)
    (hsf : env.sessionFail = none)
    (hs : env.session = some uid)
    (hci : env.contactInsertFail = none)
    (hpi : env.profileInsertFail = some err)
    (hinv : v.is_investigator = true) :
    Icts.onSubmit db env v step
      = (Icts.SubmitOutcome.profileInsertFailed
          ("Contact saved but investigator profile failed: " ++ err),
         { db with
           contacts := db.contacts ++ [Icts.contactRow uid db.nextContactId v]
           nextContactId := db.nextContactId + 1 },
         step) ∧
    (∀ m m', Icts.SubmitOutcome.profileInsertFailed m
      ≠ Icts.SubmitOutcome.contactInsertFailed m') := by
  have hd : Icts.dupCheck db env (Icts.strOrNull (Icts.trimStr v.email))
      = none := by
    unfold Icts.dupCheck Icts.strOrNull
    by_cases he : Icts.trimStr v.email = ""
    · simp [he]
    · simp [he, hq, hno]
  refine ⟨?_, by intro m m' h; cases h⟩
  simp [Icts.onSubmit, hd, hsf, hs, hci, hpi, hinv]

/-- C3 amended witness: the partial-success theorem applied to the
concrete scenario of the counterexample. -/
theorem C3_partial_success_witness :
    Icts.emailMatches Icts.dbC3 (Icts.trimStr Icts.vC3.email) = [] ∧
    Icts.envC3.emailCheckFail = false ∧
    Icts.envC3.sessionFail = none ∧
    Icts.envC3.session = some "user-2" ∧
    Icts.envC3.contactInsertFail = none ∧
    Icts.envC3.profileInsertFail = some "boom" ∧
    Icts.vC3.is_investigator = true ∧
    Icts.onSubmit Icts.dbC3 Icts.envC3 Icts.vC3 2
      = (Icts.SubmitOutcome.profileInsertFailed
          ("Contact saved but investigator profile failed: " ++ "boom"),
         { Icts.dbC3 with
           contacts := Icts.dbC3.contacts
             ++ [Icts.contactRow "user-2" Icts.dbC3.nextContactId Icts.vC3]
           nextContactId := Icts.dbC3.nextContactId + 1 },
         2) := by
  refine ⟨rfl, rfl, rfl, rfl, rfl, rfl, rfl, ?_⟩
  exact (C3_partial_success Icts.dbC3 Icts.envC3 Icts.vC3 2 "user-2" "boom"
    rfl rfl rfl rfl rfl rfl rfl).1

/-- Helper for C9: in the inserted contact row, every optional scalar
field whose form value is the empty string and every unselected
reference field is mapped to null by the falsy-or-null mapping. -/
theorem contactRow_empty_null (uid : String) (cid : Nat)
    (v : Icts.FormValues) :
    (v.mobile_phone = "" → (Icts.contactRow uid cid v).mobile_phone = none) ∧
    (v.office_phone = "" → (Icts.contactRow uid cid v).office_phone = none) ∧
    (v.academic_title = "" → (Icts.contactRow uid cid v).academic_title = none) ∧
    (v.hospital_clinic_address = "" →
      (Icts.contactRow uid cid v).hospital_clinic_address = none) ∧
    (v.admin_assistant_name = "" →
      (Icts.contactRow uid cid v).admin_assistant_name = none) ∧
    (v.admin_assistant_email = "" →
      (Icts.contactRow uid cid v).admin_assistant_email = none) ∧
    (v.admin_assistant_phone = "" →
      (Icts.contactRow uid cid v).admin_assistant_phone = none) ∧
    (v.country_id = .empty → (Icts.contactRow uid cid v).country_id = none) ∧
    (v.state_id = .empty → (Icts.contactRow uid cid v).state_id = none) ∧
    (v.city_id = .empty → (Icts.contactRow uid cid v).city_id = none) ∧
    (v.organization_id = .empty →
      (Icts.contactRow uid cid v).organization_id = none) ∧
    (v.specialty_id = .empty → (Icts.contactRow uid cid v).specialty_id = none) ∧
    (v.occupation_id = .empty →
      (Icts.contactRow uid cid v).occupation_id = none) ∧
    (v.department_id = .empty →
      (Icts.contactRow uid cid v).department_id = none) := by
  refine ⟨?_, ?_, ?_, ?_, ?_, ?_, ?_, ?_, ?_, ?_, ?_, ?_, ?_, ?_⟩ <;>
    intro h <;>
    simp [Icts.contactRow, Icts.strOrNull, Icts.selectOrNull, h]

/-- C9: every successful submission appends exactly one contact row, in
which each optional scalar field whose form value was the empty string
and each unselected reference field is persisted as null. -/
theorem C9_empty_fields_persisted_null (db : Icts.Db) (env : Icts.Env)
    (v : Icts.FormValues) (step : Int)
    (hsaved : (Icts.onSubmit db env v step).1 = Icts.SubmitOutcome.saved) :
    ∃ c, (Icts.onSubmit db env v step).2.1.contacts = db.contacts ++ [c] ∧
      (v.mobile_phone = "" → c.mobile_phone = none) ∧
      (v.office_phone = "" → c.office_phone = none) ∧
      (v.academic_title = "" → c.academic_title = none) ∧
      (v.hospital_clinic_address = "" → c.hospital_clinic_address = none) ∧
      (v.admin_assistant_name = "" → c.admin_assistant_name = none) ∧
      (v.admin_assistant_email = "" → c.admin_assistant_email = none) ∧
      (v.admin_assistant_phone = "" → c.admin_assistant_phone = none) ∧
      (v.country_id = .empty → c.country_id = none) ∧
      (v.state_id = .empty → c.state_id = none) ∧
      (v.city_id = .empty → c.city_id = none) ∧
      (v.organization_id = .empty → c.organization_id = none) ∧
      (v.specialty_id = .empty → c.specialty_id = none) ∧
      (v.occupation_id = .empty → c.occupation_id = none) ∧
      (v.department_id = .empty → c.department_id = none) := by
  cases hd : Icts.dupCheck db env (Icts.strOrNull (Icts.trimStr v.email)) with
  | some o =>
    exfalso
    have h1 : (Icts.onSubmit db env v step).1 = o := by
      simp [Icts.onSubmit, hd]
    exact dupCheck_ne_saved db env _ (by rw [hd, h1.symm.trans hsaved])
  | none =>
    cases hsf : env.sessionFail with
    | some m => simp [Icts.onSubmit, hd, hsf] at hsaved
    | none =>
      cases hs : env.session with
      | none => simp [Icts.onSubmit, hd, hsf, hs] at hsaved
      | some uid =>
        cases hci : env.contactInsertFail with
        | some raw => simp [Icts.onSubmit, hd, hsf, hs, hci] at hsaved
        | none =>
          by_cases hinv : v.is_investigator = true
          · cases hpi : env.profileInsertFail with
            | some err =>
              simp [Icts.onSubmit, hd, hsf, hs, hci, hinv, hpi] at hsaved
            | none =>
              refine ⟨Icts.contactRow uid db.nextContactId v, ?_,
                contactRow_empty_null uid db.nextContactId v⟩
              simp [Icts.onSubmit, hd, hsf, hs, hci, hinv, hpi]
          · have hinv' : v.is_investigator = false := by
              cases h : v.is_investigator
              · rfl
              · exact absurd h hinv
            refine ⟨Icts.contactRow uid db.nextContactId v, ?_,
              contactRow_empty_null uid db.nextContactId v⟩
            simp [Icts.onSubmit, hd, hsf, hs, hci, hinv']

/-- C9 witness: the all-blank submission succeeds and its persisted row
has null in every optional scalar and reference column. -/
theorem C9_empty_fields_persisted_null_witness :
    (Icts.onSubmit Icts.dbC3 Icts.envOk Icts.vBlank 3).1
      = Icts.SubmitOutcome.saved ∧
    (∃ c, (Icts.onSubmit Icts.dbC3 Icts.envOk Icts.vBlank 3).2.1.contacts
        = Icts.dbC3.contacts ++ [c] ∧
      (Icts.vBlank.mobile_phone = "" → c.mobile_phone = none) ∧
      (Icts.vBlank.office_phone = "" → c.office_phone = none) ∧
      (Icts.vBlank.academic_title = "" → c.academic_title = none) ∧
      (Icts.vBlank.hospital_clinic_address = "" →
        c.hospital_clinic_address = none) ∧
      (Icts.vBlank.admin_assistant_name = "" →
        c.admin_assistant_name = none) ∧
      (Icts.vBlank.admin_assistant_email = "" →
        c.admin_assistant_email = none) ∧
      (Icts.vBlank.admin_assistant_phone = "" →
        c.admin_assistant_phone = none) ∧
      (Icts.vBlank.country_id = .empty → c.country_id = none) ∧
      (Icts.vBlank.state_id = .empty → c.state_id = none) ∧
      (Icts.vBlank.city_id = .empty → c.city_id = none) ∧
      (Icts.vBlank.organization_id = .empty → c.organization_id = none) ∧
      (Icts.vBlank.specialty_id = .empty → c.specialty_id = none) ∧
      (Icts.vBlank.occupation_id = .empty → c.occupation_id = none) ∧
      (Icts.vBlank.department_id = .empty → c.department_id = none)) := by
  have hsaved : (Icts.onSubmit Icts.dbC3 Icts.envOk Icts.vBlank 3).1
      = Icts.SubmitOutcome.saved := by decide
  exact ⟨hsaved,
    C9_empty_fields_persisted_null Icts.dbC3 Icts.envOk Icts.vBlank 3 hsaved⟩

namespace Icts

/-! ## CSV export of the admin table

Embedding of `exportToCsv` and the row mapping of the admin table
bundled with the contact form (`src/components/ContactForm.tsx`, lines
920-978 and 1034-1107).  Each loaded row carries the scalar contact
columns, optional joined name records for the reference foreign keys,
an optional creator name, and the investigator-profile columns flattened
with `investigator?.field ?? null`.  The export maps every row to a
fixed list of 31 cells, stringifies each value (null becoming the empty
string), doubles embedded double quotes, wraps each cell in double
quotes and joins cells with commas. -/

/-- Joined reference record, as selected: a possibly null name. -/
structure NameRef where
  name : Option String
deriving DecidableEq, Repr

/-- Joined creator record from profiles: a possibly null full name. -/
structure Creator where
  full_name : Option String
deriving DecidableEq, Repr

/-- Investigator-profile record joined onto a contact row (the
`investigator` relation of the admin-table select). -/
structure InvProfileData where
  has_pi_experience : Bool
  pi_experience_notes : Option String
  interested_in_pi_role : Bool
  pi_interest_notes : Option String
  has_subi_experience : Bool
  subi_experience_notes : Option String
  interested_in_subi_role : Bool
  subi_interest_notes : Option String
  gcp_trained : Bool
  gcp_last_training_date : Option String
  notes : Option String
deriving DecidableEq, Repr

/-- Admin-table row (the `ContactRow` type of the source): scalar
columns, joined reference names, creator, and the flattened
investigator-profile columns, each nullable. -/
structure ContactRow where
  id : Nat
  first_name : String
  last_name : String
  academic_title : Option String
  email : Option String
  mobile_phone : Option String
  office_phone : Option String
  hospital_clinic_address : Option String
  admin_assistant_name : Option String
  admin_assistant_email : Option String
  admin_assistant_phone : Option String
  created_at : String
  organization : Option NameRef
  country : Option NameRef
  state : Option NameRef
  city : Option NameRef
  department : Option NameRef
  specialty : Option NameRef
  occupation : Option NameRef
  creator : Option Creator
  has_pi_experience : Option Bool
  pi_experience_notes : Option String
  interested_in_pi_role : Option Bool
  pi_interest_notes : Option String
  has_subi_experience : Option Bool
  subi_experience_notes : Option String
  interested_in_subi_role : Option Bool
  subi_interest_notes : Option String
  gcp_trained : Option Bool
  gcp_last_training_date : Option String
  inv_notes : Option String
deriving DecidableEq, Repr

/-- The row-mapping step for the investigator columns (lines 966-976):
each flattened column is `investigator?.field ?? null`, so an absent
profile leaves every investigator column null. -/
def withInvestigator (r : ContactRow) (inv : Option InvProfileData) :
    ContactRow :=
  { r with
    has_pi_experience := inv.map (fun p => p.has_pi_experience)
    pi_experience_notes := inv.bind (fun p => p.pi_experience_notes)
    interested_in_pi_role := inv.map (fun p => p.interested_in_pi_role)
    pi_interest_notes := inv.bind (fun p => p.pi_interest_notes)
    has_subi_experience := inv.map (fun p => p.has_subi_experience)
    subi_experience_notes := inv.bind (fun p => p.subi_experience_notes)
    interested_in_subi_role := inv.map (fun p => p.interested_in_subi_role)
    subi_interest_notes := inv.bind (fun p => p.subi_interest_notes)
    gcp_trained := inv.map (fun p => p.gcp_trained)
    gcp_last_training_date := inv.bind (fun p => p.gcp_last_training_date)
    inv_notes := inv.bind (fun p => p.notes) }

/-- Cell text of a nullable string: `v ?? ''` (null becomes empty). -/
def showOpt (o : Option String) : String := o.getD ""

/-- Cell text of a nullable boolean: `String(v ?? '')`, so null becomes
empty and a boolean prints as the word true or false. -/
def showOptBool (o : Option Bool) : String :=
  match o with
  | none => ""
  | some true => "true"
  | some false => "false"

/-- Cell text of a joined reference: `r.x?.name ?? ''`. -/
def showRef (o : Option NameRef) : String :=
  match o with
  | none => ""
  | some n => n.name.getD ""

/-- Cell text of the creator column: `r.creator?.full_name ?? ''`. -/
def showCreator (o : Option Creator) : String :=
  match o with
  | none => ""
  | some c => c.full_name.getD ""

/-- The fixed export header (lines 1035-1067): 31 column titles. -/
def exportHeader : List String :=
  ["ID", "First Name", "Last Name", "Academic Title", "Email",
   "Mobile Phone", "Office Phone", "Country", "State/Region", "City",
   "Organization", "Department", "Specialty", "Occupation",
   "Hospital/Clinic Address", "Admin Assistant Name",
   "Admin Assistant Email", "Admin Assistant Phone", "Has PI Experience",
   "PI Experience Notes", "Interested in PI Role", "PI Interest Notes",
   "Has Sub-I Experience", "Sub-I Experience Notes",
   "Interested in Sub-I Role", "Sub-I Interest Notes", "GCP Trained",
   "GCP Last Training Date", "Investigator Notes", "Created By",
   "Created At"]

/-- Cell values of one export line, in the source's order (lines
1070-1102). -/
def exportCells (r : ContactRow) : List String :=
  [toString r.id, r.first_name, r.last_name, showOpt r.academic_title,
   showOpt r.email, showOpt r.mobile_phone, showOpt r.office_phone,
   showRef r.country, showRef r.state, showRef r.city,
   showRef r.organization, showRef r.department, showRef r.specialty,
   showRef r.occupation, showOpt r.hospital_clinic_address,
   showOpt r.admin_assistant_name, showOpt r.admin_assistant_email,
   showOpt r.admin_assistant_phone, showOptBool r.has_pi_experience,
   showOpt r.pi_experience_notes, showOptBool r.interested_in_pi_role,
   showOpt r.pi_interest_notes, showOptBool r.has_subi_experience,
   showOpt r.subi_experience_notes, showOptBool r.interested_in_subi_role,
   showOpt r.subi_interest_notes, showOptBool r.gcp_trained,
   showOpt r.gcp_last_training_date, showOpt r.inv_notes,
   showCreator r.creator, r.created_at]

/-- Quote doubling of the cell escape: `String(v).replace(/"/g, '""')`
replaces every double-quote character by two of them. -/
def escQuote : List Char → List Char
  | [] => []
  | c :: cs => (if c = '"' then ['"', '"'] else [c]) ++ escQuote cs

/-- One emitted cell: the escaped text wrapped in double quotes. -/
def csvCell (s : String) : String :=
  "\"" ++ String.mk (escQuote s.data) ++ "\""

/-- The `join(',')` of the emitted cells. -/
def joinComma : List String → String
  | [] => ""
  | [s] => s
  | s :: rest => s ++ "," ++ joinComma rest

/-- One emitted line of the export. -/
def exportLine (r : ContactRow) : String :=
  joinComma ((exportCells r).map csvCell)

/-- Quote state of a CSV reader after scanning a character list: each
double quote toggles the in-quotes flag. -/
def scanState : List Char → Bool → Bool
  | [], q => q
  | c :: cs, q => scanState cs (if c = '"' then !q else q)

/-- Number of column separators a CSV reader sees in a character list:
commas encountered while the in-quotes flag is off. -/
def scanCount : List Char → Bool → Nat
  | [], _ => 0
  | c :: cs, q =>
      (if c = ',' ∧ q = false then 1 else 0)
        + scanCount cs (if c = '"' then !q else q)

end Icts

/-- Scan state distributes over list append. -/
theorem scanState_append (xs ys : List Char) (q : Bool) :
    Icts.scanState (xs ++ ys) q = Icts.scanState ys (Icts.scanState xs q) := by
  induction xs generalizing q with
  | nil => rfl
  | cons c cs ih => simp [Icts.scanState, ih]

/-- Separator count distributes over list append. -/
theorem scanCount_append (xs ys : List Char) (q : Bool) :
    Icts.scanCount (xs ++ ys) q
      = Icts.scanCount xs q + Icts.scanCount ys (Icts.scanState xs q) := by
  induction xs generalizing q with
  | nil => simp [Icts.scanCount, Icts.scanState]
  | cons c cs ih =>
    simp [Icts.scanCount, Icts.scanState, ih]
    omega

/-- Scanning quote-escaped text from inside quotes stays inside quotes
and sees no separator: every embedded double quote is doubled, so the
quote flag returns to on, and commas are only met while the flag is on. -/
theorem scan_escQuote (l : List Char) :
    Icts.scanState (Icts.escQuote l) true = true ∧
    Icts.scanCount (Icts.escQuote l) true = 0 := by
  induction l with
  | nil => exact ⟨rfl, rfl⟩
  | cons c cs ih =>
    by_cases hc : c = '"'
    · simp [Icts.escQuote, hc, Icts.scanState, Icts.scanCount, ih.1, ih.2]
    · simp [Icts.escQuote, hc, Icts.scanState, Icts.scanCount, ih.1, ih.2]

/-- Scanning one whole emitted cell from outside quotes returns to
outside quotes and sees no separator. -/
theorem scan_csvCell (s : String) :
    Icts.scanState (Icts.csvCell s).data false = false ∧
    Icts.scanCount (Icts.csvCell s).data false = 0 := by
  have hdata : (Icts.csvCell s).data
      = '"' :: (Icts.escQuote s.data ++ ['"']) := by
    unfold Icts.csvCell
    rw [String.data_append, String.data_append]
    rfl
  rw [hdata]
  constructor
  · show Icts.scanState (Icts.escQuote s.data ++ ['"']) true = false
    rw [scanState_append, (scan_escQuote s.data).1]
    rfl
  · show (if ('"' = ',' ∧ false = true) then 1 else 0)
        + Icts.scanCount (Icts.escQuote s.data ++ ['"']) true = 0
    rw [scanCount_append, (scan_escQuote s.data).1, (scan_escQuote s.data).2]
    rfl

/-- Joining cells that each scan cleanly gives one separator between
each adjacent pair: the parsed column count equals the cell count. -/
theorem scanCount_joinComma (ss : List String)
    (h : ∀ s ∈ ss, Icts.scanState s.data false = false ∧
      Icts.scanCount s.data false = 0) :
    Icts.scanCount (Icts.joinComma ss).data false = ss.length - 1 := by
  induction ss with
  | nil => rfl
  | cons s rest ih =>
    cases rest with
    | nil =>
      show Icts.scanCount s.data false = 1 - 1
      simpa using (h s (by simp)).2
    | cons t ts =>
      have hdata : (Icts.joinComma (s :: t :: ts)).data
          = s.data ++ (',' :: (Icts.joinComma (t :: ts)).data) := by
        show (s ++ "," ++ Icts.joinComma (t :: ts)).data
          = s.data ++ (',' :: (Icts.joinComma (t :: ts)).data)
        rw [String.data_append, String.data_append, List.append_assoc]
        rfl
      rw [hdata, scanCount_append, (h s (by simp)).2, (h s (by simp)).1]
      have hmid : Icts.scanCount (',' :: (Icts.joinComma (t :: ts)).data) false
          = 1 + Icts.scanCount (Icts.joinComma (t :: ts)).data false := by
        simp [Icts.scanCount]
      rw [hmid, ih (fun x hx => h x (by simp [hx]))]
      simp
      omega

/-- Quote doubling: the escaped text contains exactly twice as many
double-quote characters as the original. -/
theorem escQuote_count (l : List Char) :
    (Icts.escQuote l).count '"' = 2 * l.count '"' := by
  induction l with
  | nil => rfl
  | cons c cs ih =>
    by_cases hc : c = '"'
    · simp [Icts.escQuote, hc, List.count_cons, ih]
      omega
    · simp [Icts.escQuote, List.count_cons, hc, ih]

namespace Icts

/-- Concrete admin-table row used by the export witnesses: a contact
with awkward cell content (commas, quotes, a newline) and no joined
records. -/
def rowAwkward : ContactRow :=
  { id := 3, first_name := "Ada, \"The\" First", last_name := "Love\nlace"
    academic_title := some "Prof", email := none, mobile_phone := none
    office_phone := none, hospital_clinic_address := none
    admin_assistant_name := none, admin_assistant_email := none
    admin_assistant_phone := none, created_at := "2024-01-02T03:04:05Z"
    organization := some { name := some "Acme, Inc." }, country := none
    state := none, city := none, department := none, specialty := none
    occupation := none, creator := some { full_name := none }
    has_pi_experience := none, pi_experience_notes := none
    interested_in_pi_role := none, pi_interest_notes := none
    has_subi_experience := none, subi_experience_notes := none
    interested_in_subi_role := none, subi_interest_notes := none
    gcp_trained := none, gcp_last_training_date := none, inv_notes := none }

end Icts

/-- C8: the export emits the same fixed column set for every contact
row — every row's cell list has exactly the header's length, and for a
row whose investigator profile is absent each of the eleven
investigator-profile columns is present with a blank cell value rather
than omitted. -/
theorem C8_fixed_columns (r : Icts.ContactRow)
    (inv : Option Icts.InvProfileData) :
    (Icts.exportCells (Icts.withInvestigator r inv)).length
      = Icts.exportHeader.length ∧
    (inv = none →
      ((Icts.exportCells (Icts.withInvestigator r inv)).drop 18).take 11
        = List.replicate 11 "") := by
  constructor
  · rfl
  · intro h
    subst h
    rfl

/-- C8 witness: the fixed-column theorem applied to the concrete row
with no investigator profile. -/
theorem C8_fixed_columns_witness :
    (Icts.exportCells (Icts.withInvestigator Icts.rowAwkward none)).length
      = Icts.exportHeader.length ∧
    ((none : Option Icts.InvProfileData) = none →
      ((Icts.exportCells
          (Icts.withInvestigator Icts.rowAwkward none)).drop 18).take 11
        = List.replicate 11 "") :=
  C8_fixed_columns Icts.rowAwkward none

/-- C10: every emitted cell is the cell text wrapped in double quotes
with every embedded double quote doubled (the escaped text holds exactly
twice as many quote characters), and consequently a CSV reader scanning
any emitted line sees exactly the header's number of columns — a value
containing commas, quotes or newlines never changes the parsed column
count. -/
theorem C10_csv_quoting (r : Icts.ContactRow) :
    (∀ v : String, (Icts.csvCell v).data
        = '"' :: (Icts.escQuote v.data ++ ['"']) ∧
      (Icts.escQuote v.data).count '"' = 2 * v.data.count '"') ∧
    Icts.scanCount (Icts.exportLine r).data false + 1
      = Icts.exportHeader.length := by
  constructor
  · intro v
    constructor
    · unfold Icts.csvCell
      rw [String.data_append, String.data_append]
      rfl
    · exact escQuote_count v.data
  · have hcells : ∀ s ∈ (Icts.exportCells r).map Icts.csvCell,
        Icts.scanState s.data false = false ∧
        Icts.scanCount s.data false = 0 := by
      intro s hs
      obtain ⟨x, hx, hxs⟩ := List.mem_map.mp hs
      subst hxs
      exact scan_csvCell x
    have h := scanCount_joinComma ((Icts.exportCells r).map Icts.csvCell) hcells
    unfold Icts.exportLine
    rw [h]
    rfl

namespace Icts

/-- Line joining for composite text: each part on its own line. -/
def joinNl : List String → String
  | [] => ""
  | [s] => s
  | s :: rest => s ++ "\n" ++ joinNl rest

/-- Modelled from the spec: the composite-address derivation of the
submission orchestrator (spec section 4.5 step 5) is not present in the
sources provided under src/ — the bundled ContactForm variant persists
only the free-text hospital/clinic address.  The parts, in order: the
organization-type label (substituting the free-text other value when the
type is Other, and empty when no type is selected), address line 1,
address line 2, and a labeled postal code (empty when the postal code is
blank). -/
def addressParts (orgType : Option String)
    (otherText addr1 addr2 postal : String) : List String :=
  [match orgType with
   | none => ""
   | some t => if t = "Other" then otherText else t,
   addr1, addr2,
   if trimStr postal = "" then "" else "Postal Code: " ++ postal]

/-- Modelled from the spec: the derived composite address — the
non-blank parts, each on its own line, blank parts omitted; null when
every part is blank. -/
def deriveAddress (orgType : Option String)
    (otherText addr1 addr2 postal : String) : Option String :=
  let parts := (addressParts orgType otherText addr1 addr2 postal).filter
    (fun p => ¬ (trimStr p = ""))
  if parts = [] then none else some (joinNl parts)

end Icts

/-- C7: the derived address is the composite of the organization-type
label (with the Other substitution), address line 1, address line 2 and
the labeled postal code — non-blank parts in that order, each on its own
line with blank parts omitted — and it is null exactly when every part
is blank. -/
theorem C7_derived_address (orgType : Option String)
    (otherText addr1 addr2 postal : String) :
    ((∀ p ∈ Icts.addressParts orgType otherText addr1 addr2 postal,
        Icts.trimStr p = "") →
      Icts.deriveAddress orgType otherText addr1 addr2 postal = none) ∧
    ((¬ ∀ p ∈ Icts.addressParts orgType otherText addr1 addr2 postal,
        Icts.trimStr p = "") →
      Icts.deriveAddress orgType otherText addr1 addr2 postal
        = some (Icts.joinNl
            ((Icts.addressParts orgType otherText addr1 addr2 postal).filter
              (fun p => ¬ (Icts.trimStr p = ""))))) := by
  have hiff :
      (Icts.addressParts orgType otherText addr1 addr2 postal).filter
          (fun p => ¬ (Icts.trimStr p = "")) = []
        ↔ ∀ p ∈ Icts.addressParts orgType otherText addr1 addr2 postal,
            Icts.trimStr p = "" := by
    rw [List.filter_eq_nil_iff]
    constructor
    · intro h p hp
      have := h p hp
      simpa using this
    · intro h p hp
      simp [h p hp]
  constructor
  · intro h
    unfold Icts.deriveAddress
    rw [if_pos (hiff.mpr h)]
  · intro h
    unfold Icts.deriveAddress
    rw [if_neg (fun hx => h (hiff.mp hx))]

/-- C7 witness: with every input blank the derived address is null
(Scenario A), and with an organization type Other plus both address
lines and a postal code the derived composite lists the substituted
other text and each non-blank part on its own line. -/
theorem C7_derived_address_witness :
    ((∀ p ∈ Icts.addressParts none "" "" "" "", Icts.trimStr p = "") ∧
      Icts.deriveAddress none "" "" "" "" = none) ∧
    ((¬ ∀ p ∈ Icts.addressParts (some "Other") "Clinic X" "Line 1" "" "75001",
        Icts.trimStr p = "") ∧
      Icts.deriveAddress (some "Other") "Clinic X" "Line 1" "" "75001"
        = some (Icts.joinNl
            ((Icts.addressParts (some "Other") "Clinic X" "Line 1" "" "75001").filter
              (fun p => ¬ (Icts.trimStr p = ""))))) := by
  have h1 : ∀ p ∈ Icts.addressParts none "" "" "" "",
      Icts.trimStr p = "" := by decide
  have h2 : ¬ ∀ p ∈ Icts.addressParts (some "Other") "Clinic X" "Line 1" "" "75001",
      Icts.trimStr p = "" := by decide
  exact ⟨⟨h1, (C7_derived_address none "" "" "" "").1 h1⟩,
    ⟨h2, (C7_derived_address (some "Other") "Clinic X" "Line 1" "" "75001").2 h2⟩⟩
